import Mathlib

/-
Shallow embedding of the WordPress publishing pipeline of
`src/tools/wordpress_poster_tool.py` (class WordPressPosterTool).

Modelling conventions:
- Python/JSON values are modelled by the inductive `Json`; Python `None`
  is `Json.null`, so a Python function that may `return None` returns a
  `Json` value that may be `Json.null`.
- An HTTP `requests.Response` is modelled by `Response`: its status code,
  its raw text, and `body = some j` when `response.json()` decodes to `j`
  (`none` models a `JSONDecodeError` being raised by `.json()`).
- Raised Python exceptions are modelled by `Except RunErr`; each `RunErr`
  constructor corresponds to one raise site / exception class.
- Network side effects are modelled by an event trace (`List Ev`): each
  outbound HTTP call and each `_wait_for_rate_limit()` call appends an
  event.  The responses the network would return are inputs (oracles).
-/

inductive Json where
  | null : Json
  | bool : Bool → Json
  | num : Int → Json
  | str : String → Json
  | arr : List Json → Json
  | obj : List (String × Json) → Json
  deriving Repr

/-- Dictionary field lookup (first binding wins, as in a Python dict). -/
def lookupField (k : String) : List (String × Json) → Option Json
  | [] => none
  | (k', v) :: rest => if k' = k then some v else lookupField k rest

def Json.getField : Json → String → Option Json
  | .obj fs, k => lookupField k fs
  | _, _ => none

/-- Python truthiness (`if x:`) for the values `Json` can denote. -/
def Json.truthy : Json → Bool
  | .null => false
  | .bool b => b
  | .num n => n != 0
  | .str s => s != ""
  | .arr xs => !xs.isEmpty
  | .obj fs => !fs.isEmpty

def Json.isArr : Json → Bool
  | .arr _ => true
  | _ => false

def Json.isObj : Json → Bool
  | .obj _ => true
  | _ => false

mutual

/-- Approximate Python `repr` (used only via `str()` on containers; string
escaping inside reprs is not modelled, no claim exercises it). -/
def pyRepr : Json → String
  | .null => "None"
  | .bool true => "True"
  | .bool false => "False"
  | .num n => toString n
  | .str s => "\x27" ++ s ++ "\x27"
  | .arr xs => "[" ++ pyReprList xs ++ "]"
  | .obj fs => "\x7b" ++ pyReprFields fs ++ "\x7d"

/-- The `repr` of a Python list body. -/
def pyReprList : List Json → String
  | [] => ""
  | [x] => pyRepr x
  | x :: xs => pyRepr x ++ ", " ++ pyReprList xs

/-- The `repr` of a Python dict body. -/
def pyReprFields : List (String × Json) → String
  | [] => ""
  | [(k, v)] => "\x27" ++ k ++ "\x27: " ++ pyRepr v
  | (k, v) :: xs => "\x27" ++ k ++ "\x27: " ++ pyRepr v ++ ", " ++ pyReprFields xs

end

/-- Python `str()` on a value. -/
def pyStr : Json → String
  | .str s => s
  | j => pyRepr j

/-- The whitespace characters stripped by Python `str.strip()` (ASCII part). -/
def isPyWs (c : Char) : Bool :=
  c = ' ' || c = '\t' || c = '\n' || c = '\r' || c = '\x0b' || c = '\x0c'

/-- Python `str.strip()`. -/
def pyStrip (s : String) : String :=
  String.mk (((s.toList.dropWhile isPyWs).reverse.dropWhile isPyWs).reverse)

/-- Python `str.lower()` (ASCII). -/
def pyLower (s : String) : String :=
  String.mk (s.toList.map Char.toLower)

/-- An HTTP response as the tool observes it through `requests`:
`status` is `status_code`, `text` is `.text`, and `body = some j` means
`.json()` decodes to `j` (`none` means `.json()` raises `JSONDecodeError`). -/
structure Response where
  status : Nat
  body : Option Json
  text : String
  deriving Repr

/-- `requests.Response.ok`: true iff `raise_for_status()` would not raise,
i.e. iff the status code is outside 400..599. -/
def Response.ok (r : Response) : Bool :=
  !(400 ≤ r.status && r.status < 600)

/-- Exceptions the embedded code can raise; one constructor per raise
site / exception class of the source.  The constructors up to `apiError`
are `ValueError`s in the source (the spec's typed error taxonomy). -/
inductive RunErr where
  | validation : String → RunErr      -- ValueError from the input checks in `_run`
  | configError : String → RunErr     -- ValueError from `_get_credentials`
  | malformedResponse : String → RunErr -- ValueError "Invalid JSON response: <text>"
  | invalidFormat : RunErr            -- ValueError "Invalid response format"
  | missingId : RunErr                -- ValueError "Post ID not found in response"
  | authenticationError : RunErr      -- ValueError "Authentication failed. ..."
  | endpointNotFound : RunErr         -- ValueError "API endpoint not found. ..."
  | apiError : Nat → String → RunErr  -- ValueError "HTTP error <status>: <text>"
  | transportError : String → RunErr  -- RuntimeError "Failed after 3 retries: <str e>"
  | runtime : String → RunErr         -- other RuntimeError raise sites
  | otherExc : RunErr                 -- a non-transport exception out of requests.post
  | jsonDecode : RunErr               -- JSONDecodeError propagating uncaught
  | typeError : RunErr
  | keyError : RunErr
  | indexError : RunErr
  deriving Repr, DecidableEq

/-- Observable events of one tool invocation, in order: `credsLookup`
marks a `_get_credentials()` call, `rateWait` a `_wait_for_rate_limit()`
call, `sleep` a backoff `time.sleep`, and the remaining constructors the
outbound HTTP requests (tag search GET, tag create POST, publish POST,
post-update POST). -/
inductive Ev where
  | credsLookup : Ev
  | rateWait : Ev
  | sleep : Nat → Ev
  | getTags : String → Ev
  | postTags : String → Ev
  | postPublish : Json → Ev
  | postUpdateTags : List Json → Ev
  deriving Repr

/-- Is this event an outbound HTTP request? -/
def isHttpEv : Ev → Bool
  | .getTags _ => true
  | .postTags _ => true
  | .postPublish _ => true
  | .postUpdateTags _ => true
  | _ => false

def isRateWaitEv : Ev → Bool
  | .rateWait => true
  | _ => false

/-- Is this event a tag search or tag creation request? -/
def isTagReqEv : Ev → Bool
  | .getTags _ => true
  | .postTags _ => true
  | _ => false

/-- Scan of a trace checking that every HTTP request event is immediately
preceded by a rate-limiter call (`prev` is the event just before the head). -/
def rateLimitedFrom : Option Ev → List Ev → Bool
  | _, [] => true
  | prev, e :: rest =>
    (!isHttpEv e || (match prev with
      | some p => isRateWaitEv p
      | none => false)) && rateLimitedFrom (some e) rest

/-- Every outbound HTTP request event in the trace is immediately preceded
by a `rateWait` event. -/
def everyReqRateLimited (tr : List Ev) : Bool :=
  rateLimitedFrom none tr

/-- The three WORDPRESS_* environment variables as `_get_credentials`
reads them; the empty string models an unset (or empty) variable, which
`if not url:` treats as missing. -/
structure EnvVars where
  url : String
  user : String
  password : String
  deriving Repr

/-- `WordPressPosterTool._get_credentials` (lines 127-147): returns the
triple or raises a ValueError naming the first missing variable. -/
def get_credentials (e : EnvVars) : List Ev × Except RunErr (String × String × String) :=
  ([Ev.credsLookup],
    if e.url = "" then .error (.configError "WORDPRESS_URL")
    else if e.user = "" then .error (.configError "WORDPRESS_USER")
    else if e.password = "" then .error (.configError "WORDPRESS_PASS")
    else .ok (e.url, e.user, e.password))

/-- `WordPressPosterTool._validate_response` (lines 200-223).
Control flow of the source: `raise_for_status()` fires first for status
400..599 and the raised HTTPError is mapped by status (401, 404, other);
otherwise `response.json()` runs (JSONDecodeError is caught and re-raised
as ValueError "Invalid JSON response"), then the dict check and the `id`
presence check (plain ValueErrors, not caught locally). -/
def validate_response (r : Response) : Except RunErr Json :=
  if r.ok = false then
    if r.status = 401 then .error .authenticationError
    else if r.status = 404 then .error .endpointNotFound
    else .error (.apiError r.status r.text)
  else
    match r.body with
    | none => .error (.malformedResponse r.text)
    | some data =>
      if data.isObj = false then .error .invalidFormat
      else if (data.getField "id").isSome = false then .error .missingId
      else .ok data

/-- Python subscript `container[0]` as used by `existing_tags[0]`. -/
def pyGetIndex0 : Json → Except RunErr Json
  | .arr (x :: _) => .ok x
  | .arr [] => .error .indexError
  | .str s =>
    match s.toList with
    | c :: _ => .ok (.str (String.mk [c]))
    | [] => .error .indexError
  | .obj _ => .error .keyError
  | _ => .error .typeError

/-- Python subscript `d[k]` with a string key, as used by `tag['id']`. -/
def pyGetKey (j : Json) (k : String) : Except RunErr Json :=
  match j with
  | .obj _ =>
    match j.getField k with
    | some v => .ok v
    | none => .error .keyError
  | _ => .error .typeError

/-- The creation half of `_get_or_create_tag` (lines 164-173): POST the
tag name; on a successful response return `new_tag['id']`, otherwise log
a warning and return `None`. -/
def createTagPhase (tag_name : String) (create : Response) :
    List Ev × Except RunErr Json :=
  ([Ev.postTags tag_name],
    if create.ok then
      match create.body with
      | none => .error .jsonDecode
      | some new_tag => pyGetKey new_tag "id"
    else .ok Json.null)

/-- `WordPressPosterTool._get_or_create_tag` (lines 149-173): resolve
credentials, GET the tag search, and on a successful non-empty (truthy)
decoded result return `existing_tags[0]['id']` — with no name comparison;
otherwise fall through to tag creation.  The search and create responses
are the oracle inputs. -/
def get_or_create_tag (env : EnvVars) (tag_name : String)
    (search create : Response) : List Ev × Except RunErr Json :=
  let c := get_credentials env
  match c.2 with
  | .error e => (c.1, .error e)
  | .ok _ =>
    let ev1 := c.1 ++ [Ev.getTags tag_name]
    if search.ok then
      match search.body with
      | none => (ev1, .error .jsonDecode)
      | some existing_tags =>
        if existing_tags.truthy then
          (ev1, pyGetIndex0 existing_tags >>= fun t => pyGetKey t "id")
        else
          (ev1 ++ (createTagPhase tag_name create).1,
           (createTagPhase tag_name create).2)
    else
      (ev1 ++ (createTagPhase tag_name create).1,
       (createTagPhase tag_name create).2)

/-- The loop body of `_get_tag_id` (lines 105-107): first entry whose
`tag.get('name','').lower()` equals `tag_name.lower()` yields
`tag.get('id')` (which is `None` when the key is absent); a non-dict
entry or a non-string name raises (caught by the enclosing `except`). -/
def findTagMatch (tag_name : String) : List Json → Except RunErr Json
  | [] => .ok Json.null
  | tag :: rest =>
    match tag with
    | .obj _ =>
      match (tag.getField "name").getD (.str "") with
      | .str s =>
        if pyLower s = pyLower tag_name then .ok ((tag.getField "id").getD .null)
        else findTagMatch tag_name rest
      | _ => .error .typeError
    | _ => .error .typeError

/-- `WordPressPosterTool._get_tag_id` (lines 92-112): credentials are
resolved outside the `try` (so a ConfigurationError propagates); inside
the `try`, the search GET is issued and the decoded array is scanned for
a case-insensitive exact name match; any exception inside the `try`
(decode failure, non-list result, non-dict entries, ...) is caught and
turned into `None`.  This helper is not called by `_run` or by
`_get_or_create_tag`. -/
def get_tag_id (env : EnvVars) (tag_name : String) (search : Response) :
    List Ev × Except RunErr Json :=
  let c := get_credentials env
  match c.2 with
  | .error e => (c.1, .error e)
  | .ok _ =>
    (c.1 ++ [Ev.getTags tag_name],
      if search.ok then
        match search.body with
        | none => .ok Json.null
        | some tags =>
          match tags with
          | .arr l =>
            match findTagMatch tag_name l with
            | .ok v => .ok v
            | .error _ => .ok Json.null
          | _ => .ok Json.null
      else .ok Json.null)

/-- The tag-resolution loop of `_handle_tags` (lines 180-184): resolve
each name via `_get_or_create_tag`, appending truthy ids only.  Each list
element carries the name together with the search and create responses
the network would return for it. -/
def resolveTagIds (env : EnvVars) :
    List (String × Response × Response) → List Ev × Except RunErr (List Json)
  | [] => ([], .ok [])
  | (name, s, c) :: rest =>
    let g := get_or_create_tag env name s c
    match g.2 with
    | .error e => (g.1, .error e)
    | .ok tid =>
      let r := resolveTagIds env rest
      match r.2 with
      | .error e => (g.1 ++ r.1, .error e)
      | .ok ids =>
        (g.1 ++ r.1, .ok (if tid.truthy then tid :: ids else ids))

/-- `WordPressPosterTool._handle_tags` (lines 175-198): nothing on an
empty name list; otherwise resolve all names and, when any id was
resolved, POST the id list to the post-update endpoint (a failed update
only logs a warning).  The source returns `None`; the resolved id list is
returned here so that statements can speak about it.  Not called by
`_run`. -/
def handle_tags (env : EnvVars) (tagCalls : List (String × Response × Response))
    (updateResp : Response) : List Ev × Except RunErr (List Json) :=
  if tagCalls.isEmpty then ([], .ok [])
  else
    let rr := resolveTagIds env tagCalls
    match rr.2 with
    | .error e => (rr.1, .error e)
    | .ok ids =>
      if ids.isEmpty then (rr.1, .ok ids)
      else
        let c := get_credentials env
        match c.2 with
        | .error e => (rr.1 ++ c.1, .error e)
        | .ok _ =>
          let _ := updateResp.ok  -- update failure only logs a warning
          (rr.1 ++ c.1 ++ [Ev.postUpdateTags ids], .ok ids)

/-- What one `requests.post` inside `_make_request_with_retry` does:
return a response, raise a `requests.ConnectionError`, raise a
`requests.Timeout`, or raise some other exception.  The messages carry
`str(e)` of the transport exception. -/
inductive AttemptOutcome where
  | success : Response → AttemptOutcome
  | connError : String → AttemptOutcome
  | timeoutError : String → AttemptOutcome
  | otherError : AttemptOutcome
  deriving Repr

def isTransport : AttemptOutcome → Bool
  | .connError _ => true
  | .timeoutError _ => true
  | _ => false

def transportMsg : AttemptOutcome → String
  | .connError m => m
  | .timeoutError m => m
  | _ => ""

/-- One iteration of the `for attempt in range(self._max_retries)` loop of
`_make_request_with_retry` (lines 37-56), at index `attempt`, with `fuel`
remaining iterations (`fuel = 0` is the fall-through after the loop,
line 58, unreachable when the loop starts with fuel `_max_retries > 0`).
Each iteration calls `_wait_for_rate_limit()` and then `requests.post`;
a ConnectionError/Timeout before the last attempt sleeps
`(attempt + 1) * 2` seconds and continues, on the last attempt it raises
the exhaustion RuntimeError carrying `str(e)` of the last transport
exception; any response returns immediately; any other exception
propagates. -/
def retryAttempt (payload : Json) (oracle : Nat → AttemptOutcome) :
    Nat → Nat → List Ev × Except RunErr Response
  | _, 0 => ([], .error (.runtime "Failed to make request"))
  | attempt, fuel + 1 =>
    let pre := [Ev.rateWait, Ev.postPublish payload]
    match oracle attempt with
    | .success r => (pre, .ok r)
    | .otherError => (pre, .error .otherExc)
    | .connError m =>
      if attempt < 3 - 1 then
        (pre ++ [Ev.sleep ((attempt + 1) * 2)]
           ++ (retryAttempt payload oracle (attempt + 1) fuel).1,
         (retryAttempt payload oracle (attempt + 1) fuel).2)
      else (pre, .error (.transportError m))
    | .timeoutError m =>
      if attempt < 3 - 1 then
        (pre ++ [Ev.sleep ((attempt + 1) * 2)]
           ++ (retryAttempt payload oracle (attempt + 1) fuel).1,
         (retryAttempt payload oracle (attempt + 1) fuel).2)
      else (pre, .error (.transportError m))

/-- `WordPressPosterTool._make_request_with_retry` (lines 33-58) with
`_max_retries = 3` (line 21); the `oracle` gives the outcome of the k-th
`requests.post` (0-indexed).  Not called by `_run`. -/
def make_request_with_retry (payload : Json) (oracle : Nat → AttemptOutcome) :
    List Ev × Except RunErr Response :=
  retryAttempt payload oracle 0 3

/-- What the single `requests.post` of `_run` (lines 289-295) does:
return a response, or raise a `requests.RequestException` with message
`m` (which line 297 turns into a RuntimeError). -/
inductive PostOutcome where
  | resp : Response → PostOutcome
  | exc : String → PostOutcome
  deriving Repr

/-- Everything outside the tool that one `_run` call observes: the
environment variables and the outcome of the publish POST. -/
structure RunEnv where
  env : EnvVars
  outcome : PostOutcome
  deriving Repr

/-- The outer `except` clauses of `_run` (lines 304-309): a `ValueError`
is re-raised unchanged; every other exception is wrapped in
`RuntimeError("Failed to post to WordPress: ...")`.  The constructors up
to `apiError`, and `jsonDecode` (a `ValueError` subclass), are
ValueErrors. -/
def wrapOuter : RunErr → RunErr
  | .transportError m =>
    .runtime ("Failed to post to WordPress: Failed after 3 retries: " ++ m)
  | .runtime m => .runtime ("Failed to post to WordPress: " ++ m)
  | .otherExc => .runtime "Failed to post to WordPress"
  | .typeError => .runtime "Failed to post to WordPress"
  | .keyError => .runtime "Failed to post to WordPress"
  | .indexError => .runtime "Failed to post to WordPress"
  | e => e

/-- The required input fields checked at line 236. -/
def required_fields : List String := ["title", "content", "tags", "categories"]

/-- `WordPressPosterTool._run` (lines 225-309).
In source order: reject a non-dict input; reject missing required fields;
build `post_dict` with `str(title).strip()` and `str(content)`; reject an
empty title, an empty content, non-list categories, non-list tags (all
ValueErrors); resolve credentials; build the payload
`title/content/status/categories` (no tags field — the comment at line
271 defers tags to a separate step that `_run` never performs) and wrap
title and content as single-field raw objects (the `isinstance(.., str)`
guards at lines 275-278 always hold, both values are strings by
construction); issue the publish POST (a RequestException becomes a
RuntimeError); validate the response.  The outer handler re-raises
ValueErrors and wraps everything else (`wrapOuter`). -/
def run (post_data : Json) (renv : RunEnv) : List Ev × Except RunErr Json :=
  match post_data with
  | .obj _ =>
    if required_fields.all (fun k => (post_data.getField k).isSome) then
      let title := pyStrip (pyStr ((post_data.getField "title").getD .null))
      let content := pyStr ((post_data.getField "content").getD .null)
      let categories := (post_data.getField "categories").getD .null
      let tags := (post_data.getField "tags").getD .null
      if title = "" then ([], .error (.validation "Title cannot be empty"))
      else if content = "" then ([], .error (.validation "Content cannot be empty"))
      else if categories.isArr = false then
        ([], .error (.validation "Categories must be a list"))
      else if tags.isArr = false then
        ([], .error (.validation "Tags must be a list"))
      else
        let c := get_credentials renv.env
        match c.2 with
        | .error e => (c.1, .error e)
        | .ok _ =>
          let payload := Json.obj
            [("title", .obj [("raw", .str title)]),
             ("content", .obj [("raw", .str content)]),
             ("status", .str "draft"),
             ("categories", categories)]
          match renv.outcome with
          | .exc m =>
            (c.1 ++ [Ev.postPublish payload],
              .error (wrapOuter (.runtime ("Failed to connect to WordPress: " ++ m))))
          | .resp r =>
            match validate_response r with
            | .ok data => (c.1 ++ [Ev.postPublish payload], .ok data)
            | .error e => (c.1 ++ [Ev.postPublish payload], .error (wrapOuter e))
    else ([], .error (.validation "Missing required fields"))
  | _ => ([], .error (.validation "Input must be a dictionary"))

/-- The search response misses: either the GET was not successful, or it
decoded to a falsy (e.g. empty) array — exactly the situations in which
`_get_or_create_tag` falls through to tag creation. -/
def searchMiss (r : Response) : Bool :=
  !r.ok || (match r.body with
    | some j => !j.truthy
    | none => false)

/-- Number of HTTP attempts (publish POSTs) recorded in a trace. -/
def attemptCount (tr : List Ev) : Nat :=
  (tr.filter (fun e => match e with | .postPublish _ => true | _ => false)).length

/-- Did a computation end in `MalformedResponseError`? -/
def resultMalformed : Except RunErr Json → Bool
  | .error (.malformedResponse _) => true
  | _ => false

/-- A fully-populated environment, as in the spec round-trip scenario. -/
def goodEnv : EnvVars :=
  ⟨"https://example.com/wp-json/wp/v2/posts", "testuser", "testpass"⟩

/-- The spec round-trip content record
`(title:"T", content:"C", tags:["ai"], categories:[5])`. -/
def rtRecord : Json := .obj
  [("title", .str "T"), ("content", .str "C"),
   ("tags", .arr [.str "ai"]), ("categories", .arr [.num 5])]

/-- The mock publish response body of the round-trip scenario. -/
def rtBody : Json := .obj
  [("id", .num 123), ("link", .str "https://example.com/?p=123")]

/-- Round-trip run environment: credentials present, the publish POST is
answered with status 201 and the mock body. -/
def rtRunEnv : RunEnv := ⟨goodEnv, .resp ⟨201, some rtBody, ""⟩⟩

/-- The publish payload `run` actually builds for `rtRecord`. -/
def rtPayload : Json := .obj
  [("title", .obj [("raw", .str "T")]),
   ("content", .obj [("raw", .str "C")]),
   ("status", .str "draft"),
   ("categories", .arr [.num 5])]

/- ------------------------------------------------------------------ -/
/- Helper lemmas                                                      -/
/- ------------------------------------------------------------------ -/

theorem get_credentials_fst (e : EnvVars) : (get_credentials e).1 = [Ev.credsLookup] :=
  rfl

theorem get_credentials_snd_ok (e : EnvVars) (hu : e.url ≠ "")
    (hn : e.user ≠ "") (hp : e.password ≠ "") :
    (get_credentials e).2 = .ok (e.url, e.user, e.password) := by
  simp [get_credentials, hu, hn, hp]

theorem ok_false_of_range (r : Response) (h1 : 400 ≤ r.status)
    (h2 : r.status < 600) : r.ok = false := by
  simp [Response.ok, h1, h2]

theorem ok_true_of_out (r : Response) (h : r.status < 400 ∨ 600 ≤ r.status) :
    r.ok = true := by
  rcases h with h | h <;> simp [Response.ok] <;> omega

theorem pyStrip_eq_empty (s : String) (h : ∀ c ∈ s.toList, isPyWs c = true) :
    pyStrip s = "" := by
  have hd : s.toList.dropWhile isPyWs = [] := List.dropWhile_eq_nil_iff.mpr h
  unfold pyStrip
  rw [hd]
  rfl

/- ------------------------------------------------------------------ -/
/- C5                                                                 -/
/- ------------------------------------------------------------------ -/

/-- Claim C5, counterexample: a 302 response is non-2xx and is neither
401 nor 404, yet the validator does not fail with ApiError — with a
decoded body carrying an id it succeeds, because the code's `response.ok`
gate only treats statuses 400..599 as errors. -/
theorem C5_counterexample :
    validate_response ⟨302, some (.obj [("id", .num 5)]), "moved"⟩
      = .ok (.obj [("id", .num 5)])
  ∧ ¬(200 ≤ 302 ∧ 302 < 300) ∧ 302 ≠ 401 ∧ 302 ≠ 404 :=
  ⟨rfl, by decide, by decide, by decide⟩

/-- Claim C5, amended: the validator classifies status 401 as
AuthenticationError, status 404 as EndpointNotFoundError, and any OTHER
STATUS IN 400..599 as ApiError carrying the status code and raw body; a
response with any status outside 400..599 (2xx, but also 1xx/3xx) whose
decoded body is a mapping containing an id field succeeds. -/
theorem C5_amended (r : Response) :
    (r.status = 401 → validate_response r = .error .authenticationError)
  ∧ (r.status = 404 → validate_response r = .error .endpointNotFound)
  ∧ (400 ≤ r.status → r.status < 600 → r.status ≠ 401 → r.status ≠ 404 →
      validate_response r = .error (.apiError r.status r.text))
  ∧ (∀ data, (r.status < 400 ∨ 600 ≤ r.status) → r.body = some data →
      data.isObj = true → (data.getField "id").isSome = true →
      validate_response r = .ok data) := by
  refine ⟨?_, ?_, ?_, ?_⟩
  · intro h
    have hok : r.ok = false := ok_false_of_range r (by omega) (by omega)
    simp [validate_response, hok, h]
  · intro h
    have hok : r.ok = false := ok_false_of_range r (by omega) (by omega)
    simp [validate_response, hok, h]
  · intro h1 h2 h401 h404
    have hok : r.ok = false := ok_false_of_range r h1 h2
    simp [validate_response, hok, h401, h404]
  · intro data hout hb hobj hid
    have hok : r.ok = true := ok_true_of_out r hout
    simp [validate_response, hok, hb, hobj, hid]

/-- Witness for C5_amended at concrete responses. -/
theorem C5_amended_witness :
    validate_response ⟨401, none, "denied"⟩ = .error .authenticationError
  ∧ validate_response ⟨404, none, "missing"⟩ = .error .endpointNotFound
  ∧ validate_response ⟨500, none, "boom"⟩ = .error (.apiError 500 "boom")
  ∧ validate_response ⟨200, some (.obj [("id", .num 1)]), ""⟩
      = .ok (.obj [("id", .num 1)]) :=
  ⟨(C5_amended ⟨401, none, "denied"⟩).1 rfl,
   (C5_amended ⟨404, none, "missing"⟩).2.1 rfl,
   (C5_amended ⟨500, none, "boom"⟩).2.2.1 (by decide) (by decide)
     (by decide) (by decide),
   (C5_amended ⟨200, some (.obj [("id", .num 1)]), ""⟩).2.2.2
     (.obj [("id", .num 1)]) (Or.inl (by decide)) rfl rfl rfl⟩

/- ------------------------------------------------------------------ -/
/- C6                                                                 -/
/- ------------------------------------------------------------------ -/

/-- Claim C6, counterexample: for a 200 response whose body is a mapping
with an id but no link, the validator returns the raw mapping itself: the
result has NO link field at all — the string "URL not available" is never
substituted (it appears nowhere in the code). -/
theorem C6_counterexample :
    validate_response ⟨200, some (.obj [("id", .num 7)]), ""⟩
      = .ok (.obj [("id", .num 7)])
  ∧ (Json.obj [("id", .num 7)]).getField "link" = none :=
  ⟨rfl, rfl⟩

/-- Claim C6, amended: for every 2xx response whose decoded body is a
mapping containing an id field, the validator returns the full decoded
body itself as the result — so its id is the body's id field, its raw
content is the whole body, and its link field is exactly the body's link
field: present when present, and simply absent (no default is applied)
when missing. -/
theorem C6_amended (r : Response) (data : Json)
    (h1 : 200 ≤ r.status) (h2 : r.status < 300)
    (hb : r.body = some data) (hobj : data.isObj = true)
    (hid : (data.getField "id").isSome = true) :
    validate_response r = .ok data := by
  have hok : r.ok = true := ok_true_of_out r (Or.inl (by omega))
  simp [validate_response, hok, hb, hobj, hid]

/-- Witness for C6_amended at a concrete 204 response without a link. -/
theorem C6_amended_witness :
    validate_response ⟨204, some (.obj [("id", .num 9)]), ""⟩
      = .ok (.obj [("id", .num 9)]) :=
  C6_amended ⟨204, some (.obj [("id", .num 9)]), ""⟩ (.obj [("id", .num 9)])
    (by decide) (by decide) rfl rfl rfl

/- ------------------------------------------------------------------ -/
/- C9                                                                 -/
/- ------------------------------------------------------------------ -/

/-- Claim C9, counterexample: a 302 response (non-2xx) whose body is not
decodable JSON yields MalformedResponseError, not a status-based error —
the claimed status-first classification only applies to 400..599. -/
theorem C9_counterexample :
    validate_response ⟨302, none, "oops"⟩ = .error (.malformedResponse "oops")
  ∧ ¬(200 ≤ 302 ∧ 302 < 300) :=
  ⟨rfl, by decide⟩

/-- Claim C9, amended: for every response with status in 400..599 the
resulting error is determined solely by the status code before any body
decoding — the body is irrelevant and the result is never
MalformedResponseError.  (A non-2xx status outside that range, e.g. 3xx,
instead proceeds to body decoding and can yield MalformedResponseError.) -/
theorem C9_amended (s : Nat) (t : String) (b : Option Json)
    (h1 : 400 ≤ s) (h2 : s < 600) :
    validate_response ⟨s, b, t⟩ = validate_response ⟨s, none, t⟩
  ∧ resultMalformed (validate_response ⟨s, b, t⟩) = false := by
  have hok : Response.ok ⟨s, b, t⟩ = false := ok_false_of_range _ h1 h2
  have hok2 : Response.ok ⟨s, none, t⟩ = false := ok_false_of_range _ h1 h2
  have h1st : validate_response ⟨s, b, t⟩ = validate_response ⟨s, none, t⟩ := by
    simp [validate_response, hok, hok2]
  refine ⟨h1st, ?_⟩
  rw [h1st]
  simp only [validate_response, hok2]
  split_ifs <;> rfl

/-- Witness for C9_amended at a concrete undecodable 503 response. -/
theorem C9_amended_witness :
    validate_response ⟨503, some Json.null, "x"⟩ = validate_response ⟨503, none, "x"⟩
  ∧ resultMalformed (validate_response ⟨503, some Json.null, "x"⟩) = false :=
  C9_amended 503 "x" (some Json.null) (by omega) (by omega)

/- ------------------------------------------------------------------ -/
/- C4                                                                 -/
/- ------------------------------------------------------------------ -/

/-- A tag search result whose only entry matches the query "ai" merely as
a search hit, with a different name. -/
def c4entry : Json := .obj [("id", .num 7), ("name", .str "brain")]

def c4search : Response := ⟨200, some (.arr [c4entry]), ""⟩

def c4create : Response := ⟨500, none, "server error"⟩

/-- Claim C4, counterexample: querying tag "ai" against a successful
search returning the single entry (id 7, name "brain") makes
`_get_or_create_tag` return id 7, although "brain" does not equal "ai"
case-insensitively — the first search hit is accepted blindly, substring
or unrelated matches included. -/
theorem C4_counterexample :
    (get_or_create_tag goodEnv "ai" c4search c4create).2 = .ok (.num 7)
  ∧ c4entry.getField "name" = some (.str "brain")
  ∧ pyLower "brain" ≠ pyLower "ai" :=
  ⟨rfl, rfl, by decide⟩

/-- Claim C4, amended: when the tag-search GET returns a successful
response with a non-empty decoded array, `_get_or_create_tag` returns the
id field of the FIRST entry unconditionally — no name comparison is made,
so entries that are mere substring (or unrelated) search matches are
accepted.  (The case-insensitive exact-match filter exists only in the
separate `_get_tag_id` helper, which this path never calls.) -/
theorem C4_amended (env : EnvVars) (name : String) (search create : Response)
    (t : Json) (ts : List Json) (v : Json)
    (hu : env.url ≠ "") (hn : env.user ≠ "") (hp : env.password ≠ "")
    (hok : search.ok = true) (hb : search.body = some (.arr (t :: ts)))
    (hid : t.getField "id" = some v) :
    (get_or_create_tag env name search create).2 = .ok v := by
  have hc := get_credentials_snd_ok env hu hn hp
  cases t with
  | obj fs =>
    simp [get_or_create_tag, hc, hok, hb, Json.truthy, pyGetIndex0, pyGetKey,
      Bind.bind, Except.bind, hid]
  | null => simp [Json.getField] at hid
  | bool b => simp [Json.getField] at hid
  | num n => simp [Json.getField] at hid
  | str s => simp [Json.getField] at hid
  | arr l => simp [Json.getField] at hid

/-- Witness for C4_amended at a concrete non-matching first entry. -/
theorem C4_amended_witness :
    (get_or_create_tag goodEnv "x"
      ⟨200, some (.arr [.obj [("id", .num 3), ("name", .str "zzz")]]), ""⟩
      ⟨500, none, ""⟩).2 = .ok (.num 3) :=
  C4_amended goodEnv "x"
    ⟨200, some (.arr [.obj [("id", .num 3), ("name", .str "zzz")]]), ""⟩
    ⟨500, none, ""⟩ (.obj [("id", .num 3), ("name", .str "zzz")]) [] (.num 3)
    (by decide) (by decide) (by decide) rfl rfl rfl

/- ------------------------------------------------------------------ -/
/- C7                                                                 -/
/- ------------------------------------------------------------------ -/

/-- Claim C7: when the tag search misses and the creation POST fails
(e.g. the tag already exists and creation is rejected, or any non-2xx),
`_get_or_create_tag` returns unresolved (`None`) without raising, and the
`_handle_tags` resolution loop omits that tag from the final tag-id list
while still completing normally for the remaining tags. -/
theorem C7_tag_failure (env : EnvVars) (name : String) (s c : Response)
    (hu : env.url ≠ "") (hn : env.user ≠ "") (hp : env.password ≠ "")
    (hmiss : searchMiss s = true) (hfail : c.ok = false) :
    (get_or_create_tag env name s c).2 = .ok Json.null
  ∧ ∀ rest tr ids, resolveTagIds env rest = (tr, .ok ids) →
      (resolveTagIds env ((name, s, c) :: rest)).2 = .ok ids := by
  have hc := get_credentials_snd_ok env hu hn hp
  have hcr : (createTagPhase name c).2 = .ok Json.null := by
    simp [createTagPhase, hfail]
  have h1 : (get_or_create_tag env name s c).2 = .ok Json.null := by
    by_cases hso : s.ok = true
    · cases hsb : s.body with
      | none => simp [searchMiss, hso, hsb] at hmiss
      | some j =>
        have htr : j.truthy = false := by
          simpa [searchMiss, hso, hsb] using hmiss
        simp [get_or_create_tag, hc, hso, hsb, htr, hcr]
    · have hso' : s.ok = false := by simpa using hso
      simp [get_or_create_tag, hc, hso', hcr]
  refine ⟨h1, ?_⟩
  intro rest tr ids h
  simp [resolveTagIds, h1, h, Json.truthy]

/-- Witness for C7_tag_failure: an empty search result and a rejected
creation (HTTP 400, "term exists") resolve to `None` and are omitted. -/
theorem C7_tag_failure_witness :
    (get_or_create_tag goodEnv "newtag" ⟨200, some (.arr []), ""⟩
      ⟨400, some (.obj [("code", .str "term_exists")]), "exists"⟩).2
      = .ok Json.null
  ∧ (resolveTagIds goodEnv [("newtag", ⟨200, some (.arr []), ""⟩,
      ⟨400, some (.obj [("code", .str "term_exists")]), "exists"⟩)]).2
      = .ok [] := by
  have h := C7_tag_failure goodEnv "newtag" ⟨200, some (.arr []), ""⟩
    ⟨400, some (.obj [("code", .str "term_exists")]), "exists"⟩
    (by decide) (by decide) (by decide) (by decide) (by decide)
  exact ⟨h.1, h.2 [] [] [] rfl⟩

/- ------------------------------------------------------------------ -/
/- C3                                                                 -/
/- ------------------------------------------------------------------ -/

theorem retryAttempt_count (payload : Json) (oracle : Nat → AttemptOutcome) :
    ∀ fuel attempt, attemptCount (retryAttempt payload oracle attempt fuel).1 ≤ fuel := by
  intro fuel
  induction fuel with
  | zero => intro attempt; simp [retryAttempt, attemptCount]
  | succ n ih =>
    intro attempt
    cases h : oracle attempt with
    | success r => simp [retryAttempt, h, attemptCount]
    | otherError => simp [retryAttempt, h, attemptCount]
    | connError m =>
      by_cases ha : attempt < 3 - 1
      · have hrec := ih (attempt + 1)
        simp only [retryAttempt, h, ha, if_true, attemptCount,
          List.filter_append, List.length_append] at *
        simp only [List.filter, List.length]
        omega
      · simp [retryAttempt, h, ha, attemptCount]
    | timeoutError m =>
      by_cases ha : attempt < 3 - 1
      · have hrec := ih (attempt + 1)
        simp only [retryAttempt, h, ha, if_true, attemptCount,
          List.filter_append, List.length_append] at *
        simp only [List.filter, List.length]
        omega
      · simp [retryAttempt, h, ha, attemptCount]

/-- Claim C3: the retry executor makes at most 3 attempts; any returned
HTTP response (whatever its status) is handed back without retry; after
failed attempt k (1-indexed) it sleeps k*2 seconds (2s then 4s), with no
sleep after the final attempt; when all 3 attempts fail with transport
errors it raises the exhaustion error wrapping the last transport
exception's message, without a 4th call; and a non-transport exception
propagates immediately without retry. -/
theorem C3_retry (payload : Json) (oracle : Nat → AttemptOutcome) :
    attemptCount (make_request_with_retry payload oracle).1 ≤ 3
  ∧ (∀ r, oracle 0 = .success r →
      make_request_with_retry payload oracle
        = ([.rateWait, .postPublish payload], .ok r))
  ∧ (∀ r, isTransport (oracle 0) = true → oracle 1 = .success r →
      make_request_with_retry payload oracle
        = ([.rateWait, .postPublish payload, .sleep 2,
            .rateWait, .postPublish payload], .ok r))
  ∧ (∀ r, isTransport (oracle 0) = true → isTransport (oracle 1) = true →
      oracle 2 = .success r →
      make_request_with_retry payload oracle
        = ([.rateWait, .postPublish payload, .sleep 2,
            .rateWait, .postPublish payload, .sleep 4,
            .rateWait, .postPublish payload], .ok r))
  ∧ (isTransport (oracle 0) = true → isTransport (oracle 1) = true →
      isTransport (oracle 2) = true →
      make_request_with_retry payload oracle
        = ([.rateWait, .postPublish payload, .sleep 2,
            .rateWait, .postPublish payload, .sleep 4,
            .rateWait, .postPublish payload],
           .error (.transportError (transportMsg (oracle 2)))))
  ∧ (oracle 0 = .otherError →
      make_request_with_retry payload oracle
        = ([.rateWait, .postPublish payload], .error .otherExc))
  ∧ (isTransport (oracle 0) = true → oracle 1 = .otherError →
      make_request_with_retry payload oracle
        = ([.rateWait, .postPublish payload, .sleep 2,
            .rateWait, .postPublish payload], .error .otherExc)) := by
  refine ⟨retryAttempt_count payload oracle 3 0, ?_, ?_, ?_, ?_, ?_, ?_⟩
  · intro r h0
    simp [make_request_with_retry, retryAttempt, h0]
  · intro r h0t h1
    cases h0 : oracle 0 with
    | connError m => simp [make_request_with_retry, retryAttempt, h0, h1]
    | timeoutError m => simp [make_request_with_retry, retryAttempt, h0, h1]
    | success r2 => rw [h0] at h0t; simp [isTransport] at h0t
    | otherError => rw [h0] at h0t; simp [isTransport] at h0t
  · intro r h0t h1t h2
    cases h0 : oracle 0 with
    | success r2 => rw [h0] at h0t; simp [isTransport] at h0t
    | otherError => rw [h0] at h0t; simp [isTransport] at h0t
    | connError m =>
      cases h1 : oracle 1 with
      | success r2 => rw [h1] at h1t; simp [isTransport] at h1t
      | otherError => rw [h1] at h1t; simp [isTransport] at h1t
      | connError m2 => simp [make_request_with_retry, retryAttempt, h0, h1, h2]
      | timeoutError m2 => simp [make_request_with_retry, retryAttempt, h0, h1, h2]
    | timeoutError m =>
      cases h1 : oracle 1 with
      | success r2 => rw [h1] at h1t; simp [isTransport] at h1t
      | otherError => rw [h1] at h1t; simp [isTransport] at h1t
      | connError m2 => simp [make_request_with_retry, retryAttempt, h0, h1, h2]
      | timeoutError m2 => simp [make_request_with_retry, retryAttempt, h0, h1, h2]
  · intro h0t h1t h2t
    cases h0 : oracle 0 with
    | success r2 => rw [h0] at h0t; simp [isTransport] at h0t
    | otherError => rw [h0] at h0t; simp [isTransport] at h0t
    | connError m =>
      cases h1 : oracle 1 with
      | success r2 => rw [h1] at h1t; simp [isTransport] at h1t
      | otherError => rw [h1] at h1t; simp [isTransport] at h1t
      | connError m2 =>
        cases h2 : oracle 2 with
        | success r2 => rw [h2] at h2t; simp [isTransport] at h2t
        | otherError => rw [h2] at h2t; simp [isTransport] at h2t
        | connError m3 =>
          simp [make_request_with_retry, retryAttempt, h0, h1, h2, transportMsg]
        | timeoutError m3 =>
          simp [make_request_with_retry, retryAttempt, h0, h1, h2, transportMsg]
      | timeoutError m2 =>
        cases h2 : oracle 2 with
        | success r2 => rw [h2] at h2t; simp [isTransport] at h2t
        | otherError => rw [h2] at h2t; simp [isTransport] at h2t
        | connError m3 =>
          simp [make_request_with_retry, retryAttempt, h0, h1, h2, transportMsg]
        | timeoutError m3 =>
          simp [make_request_with_retry, retryAttempt, h0, h1, h2, transportMsg]
    | timeoutError m =>
      cases h1 : oracle 1 with
      | success r2 => rw [h1] at h1t; simp [isTransport] at h1t
      | otherError => rw [h1] at h1t; simp [isTransport] at h1t
      | connError m2 =>
        cases h2 : oracle 2 with
        | success r2 => rw [h2] at h2t; simp [isTransport] at h2t
        | otherError => rw [h2] at h2t; simp [isTransport] at h2t
        | connError m3 =>
          simp [make_request_with_retry, retryAttempt, h0, h1, h2, transportMsg]
        | timeoutError m3 =>
          simp [make_request_with_retry, retryAttempt, h0, h1, h2, transportMsg]
      | timeoutError m2 =>
        cases h2 : oracle 2 with
        | success r2 => rw [h2] at h2t; simp [isTransport] at h2t
        | otherError => rw [h2] at h2t; simp [isTransport] at h2t
        | connError m3 =>
          simp [make_request_with_retry, retryAttempt, h0, h1, h2, transportMsg]
        | timeoutError m3 =>
          simp [make_request_with_retry, retryAttempt, h0, h1, h2, transportMsg]
  · intro h0
    simp [make_request_with_retry, retryAttempt, h0]
  · intro h0t h1
    cases h0 : oracle 0 with
    | success r2 => rw [h0] at h0t; simp [isTransport] at h0t
    | otherError => rw [h0] at h0t; simp [isTransport] at h0t
    | connError m => simp [make_request_with_retry, retryAttempt, h0, h1]
    | timeoutError m => simp [make_request_with_retry, retryAttempt, h0, h1]

/-- Witness for C3_retry: an oracle failing with a connection error on
every attempt makes exactly 3 attempts, sleeps 2s then 4s, and raises the
exhaustion error wrapping the last message. -/
theorem C3_retry_witness :
    make_request_with_retry (.str "p") (fun _ => .connError "refused")
      = ([.rateWait, .postPublish (.str "p"), .sleep 2,
          .rateWait, .postPublish (.str "p"), .sleep 4,
          .rateWait, .postPublish (.str "p")],
         .error (.transportError "refused")) :=
  (C3_retry (.str "p") (fun _ => .connError "refused")).2.2.2.2.1
    rfl rfl rfl

/- ------------------------------------------------------------------ -/
/- run lemmas                                                         -/
/- ------------------------------------------------------------------ -/

/-- On a well-formed record `run` reaches the publish POST with the
payload built from the stripped title, the unchanged content, the fixed
draft status and the pass-through categories — and no tags field. -/
theorem run_valid_trace (title content : String) (tagsJ catsJ : Json)
    (renv : RunEnv)
    (htitle : pyStrip title ≠ "") (hcontent : content ≠ "")
    (htags : tagsJ.isArr = true) (hcats : catsJ.isArr = true)
    (hu : renv.env.url ≠ "") (hn : renv.env.user ≠ "") (hp : renv.env.password ≠ "") :
    (run (Json.obj [("title", .str title), ("content", .str content),
        ("tags", tagsJ), ("categories", catsJ)]) renv).1
      = [Ev.credsLookup, Ev.postPublish (Json.obj
          [("title", .obj [("raw", .str (pyStrip title))]),
           ("content", .obj [("raw", .str content)]),
           ("status", .str "draft"),
           ("categories", catsJ)])] := by
  have hrec : (Json.obj [("title", Json.str title), ("content", Json.str content),
      ("tags", tagsJ), ("categories", catsJ)]).getField "title" = some (.str title) := rfl
  have hrec2 : (Json.obj [("title", Json.str title), ("content", Json.str content),
      ("tags", tagsJ), ("categories", catsJ)]).getField "content" = some (.str content) := rfl
  have hrec3 : (Json.obj [("title", Json.str title), ("content", Json.str content),
      ("tags", tagsJ), ("categories", catsJ)]).getField "tags" = some tagsJ := rfl
  have hrec4 : (Json.obj [("title", Json.str title), ("content", Json.str content),
      ("tags", tagsJ), ("categories", catsJ)]).getField "categories" = some catsJ := rfl
  have hreq : required_fields.all (fun k => ((Json.obj [("title", Json.str title),
      ("content", Json.str content), ("tags", tagsJ),
      ("categories", catsJ)]).getField k).isSome) = true := by
    simp [required_fields, hrec, hrec2, hrec3, hrec4]
  have hc := get_credentials_snd_ok renv.env hu hn hp
  cases ho : renv.outcome with
  | exc m =>
    simp [run, hreq, hrec, hrec2, hrec3, hrec4, pyStr, htitle, hcontent,
      htags, hcats, hc, get_credentials_fst, ho]
  | resp r =>
    cases hv : validate_response r with
    | ok d =>
      simp [run, hreq, hrec, hrec2, hrec3, hrec4, pyStr, htitle, hcontent,
        htags, hcats, hc, get_credentials_fst, ho, hv]
    | error e =>
      simp [run, hreq, hrec, hrec2, hrec3, hrec4, pyStr, htitle, hcontent,
        htags, hcats, hc, get_credentials_fst, ho, hv]

/-- Every possible `run` trace: empty, just the credentials lookup, or
the credentials lookup followed by the single publish POST. -/
theorem run_trace_shape (pd : Json) (renv : RunEnv) :
    (run pd renv).1 = [] ∨ (run pd renv).1 = [Ev.credsLookup]
  ∨ ∃ p, (run pd renv).1 = [Ev.credsLookup, Ev.postPublish p] := by
  cases pd with
  | null => left; rfl
  | bool b => left; rfl
  | num n => left; rfl
  | str s => left; rfl
  | arr l => left; rfl
  | obj fs =>
    by_cases hreq : required_fields.all
        (fun k => ((Json.obj fs).getField k).isSome) = true
    · by_cases h1 : pyStrip (pyStr (((Json.obj fs).getField "title").getD .null)) = ""
      · left; simp [run, hreq, h1]
      · by_cases h2 : pyStr (((Json.obj fs).getField "content").getD .null) = ""
        · left; simp [run, hreq, h1, h2]
        · by_cases h3 : (((Json.obj fs).getField "categories").getD .null).isArr = false
          · left; simp [run, hreq, h1, h2, h3]
          · by_cases h4 : (((Json.obj fs).getField "tags").getD .null).isArr = false
            · left; simp [run, hreq, h1, h2, h3, h4]
            · cases hc2 : (get_credentials renv.env).2 with
              | error e =>
                right; left
                simp [run, hreq, h1, h2, h3, h4, hc2, get_credentials_fst]
              | ok creds =>
                right; right
                cases ho : renv.outcome with
                | exc m =>
                  simp [run, hreq, h1, h2, h3, h4, hc2, ho, get_credentials_fst]
                | resp r =>
                  cases hv : validate_response r with
                  | ok d =>
                    simp [run, hreq, h1, h2, h3, h4, hc2, ho, hv, get_credentials_fst]
                  | error e =>
                    simp [run, hreq, h1, h2, h3, h4, hc2, ho, hv, get_credentials_fst]
    · left; simp [run, hreq]

/-- Every possible `_get_or_create_tag` trace: credentials lookup only
(credentials error), lookup plus the search GET, or lookup, search GET
and creation POST.  No trace contains a rate-limiter call. -/
theorem get_or_create_tag_trace_shape (env : EnvVars) (name : String)
    (s c : Response) :
    (get_or_create_tag env name s c).1 = [Ev.credsLookup]
  ∨ (get_or_create_tag env name s c).1 = [Ev.credsLookup, Ev.getTags name]
  ∨ (get_or_create_tag env name s c).1
      = [Ev.credsLookup, Ev.getTags name, Ev.postTags name] := by
  cases hc2 : (get_credentials env).2 with
  | error e => left; simp [get_or_create_tag, hc2, get_credentials_fst]
  | ok creds =>
    by_cases hso : s.ok = true
    · cases hsb : s.body with
      | none =>
        right; left
        simp [get_or_create_tag, hc2, hso, hsb, get_credentials_fst]
      | some j =>
        by_cases htr : j.truthy = true
        · right; left
          simp [get_or_create_tag, hc2, hso, hsb, htr, get_credentials_fst]
        · have htr' : j.truthy = false := by simpa using htr
          right; right
          simp [get_or_create_tag, hc2, hso, hsb, htr', createTagPhase,
            get_credentials_fst]
    · have hso' : s.ok = false := by simpa using hso
      right; right
      simp [get_or_create_tag, hc2, hso', createTagPhase, get_credentials_fst]

theorem retryAttempt_rateLimited (payload : Json) (oracle : Nat → AttemptOutcome) :
    ∀ fuel attempt prev,
      rateLimitedFrom prev (retryAttempt payload oracle attempt fuel).1 = true := by
  intro fuel
  induction fuel with
  | zero => intro attempt prev; rfl
  | succ n ih =>
    intro attempt prev
    cases h : oracle attempt with
    | success r => simp [retryAttempt, h, rateLimitedFrom, isHttpEv, isRateWaitEv]
    | otherError => simp [retryAttempt, h, rateLimitedFrom, isHttpEv, isRateWaitEv]
    | connError m =>
      by_cases ha : attempt < 3 - 1
      · simp [retryAttempt, h, ha, rateLimitedFrom, isHttpEv, isRateWaitEv, ih]
      · simp [retryAttempt, h, ha, rateLimitedFrom, isHttpEv, isRateWaitEv]
    | timeoutError m =>
      by_cases ha : attempt < 3 - 1
      · simp [retryAttempt, h, ha, rateLimitedFrom, isHttpEv, isRateWaitEv, ih]
      · simp [retryAttempt, h, ha, rateLimitedFrom, isHttpEv, isRateWaitEv]

/- ------------------------------------------------------------------ -/
/- C1                                                                 -/
/- ------------------------------------------------------------------ -/

/-- Claim C1, evaluation at the failing input: for the round-trip record
(title "T", content "C", tags ["ai"], categories [5]) the publish POST
body wraps title and content as raw objects, fixes status to "draft" and
passes categories through — but it contains NO tags field at all, and the
whole run issues no tag search or tag creation request: the tag names are
silently dropped (`_run` builds the payload without tags, deferring them
to a separate step it never performs), contradicting the claim and the
repository's own test `test_post_with_tags`. -/
theorem C1_publish_body_eval :
    run rtRecord rtRunEnv = ([Ev.credsLookup, Ev.postPublish rtPayload], .ok rtBody)
  ∧ rtPayload.getField "tags" = none
  ∧ rtPayload.getField "status" = some (.str "draft")
  ∧ rtPayload.getField "categories" = some (.arr [.num 5])
  ∧ rtPayload.getField "title" = some (.obj [("raw", .str "T")])
  ∧ rtPayload.getField "content" = some (.obj [("raw", .str "C")])
  ∧ (run rtRecord rtRunEnv).1.all (fun e => !isTagReqEv e) = true :=
  ⟨rfl, rfl, rfl, rfl, rfl, rfl, rfl⟩

/- ------------------------------------------------------------------ -/
/- C2                                                                 -/
/- ------------------------------------------------------------------ -/

/-- Claim C2, counterexample: a successful publish of the round-trip
record issues an outbound HTTP request (the publish POST), yet its trace
fails the every-request-immediately-preceded-by-awaitSlot check — `_run`
calls `requests.post` directly, never `_wait_for_rate_limit`. -/
theorem C2_counterexample :
    everyReqRateLimited (run rtRecord rtRunEnv).1 = false
  ∧ (run rtRecord rtRunEnv).1.any isHttpEv = true :=
  ⟨rfl, rfl⟩

/-- Claim C2, amended: only requests issued through
`_make_request_with_retry` are immediately preceded by a
`_wait_for_rate_limit` call (one per attempt); the publish flow never
uses that helper — neither `_run` (whose publish POST is issued directly)
nor `_get_or_create_tag` (tag search GET and creation POST) ever calls
the rate limiter at all. -/
theorem C2_amended :
    (∀ payload oracle,
      everyReqRateLimited (make_request_with_retry payload oracle).1 = true)
  ∧ (∀ pd renv e, e ∈ (run pd renv).1 → isRateWaitEv e = false)
  ∧ (∀ env name s c e, e ∈ (get_or_create_tag env name s c).1 →
      isRateWaitEv e = false) := by
  refine ⟨?_, ?_, ?_⟩
  · intro payload oracle
    exact retryAttempt_rateLimited payload oracle 3 0 none
  · intro pd renv e he
    rcases run_trace_shape pd renv with h | h | ⟨p, h⟩ <;> rw [h] at he <;>
      simp at he
    · subst he; rfl
    · rcases he with he | he <;> subst he <;> rfl
  · intro env name s c e he
    rcases get_or_create_tag_trace_shape env name s c with h | h | h <;>
      rw [h] at he <;> simp at he
    · subst he; rfl
    · rcases he with he | he <;> subst he <;> rfl
    · rcases he with he | he | he <;> subst he <;> rfl

/-- Witness for C2_amended at a concrete retry run and a concrete publish. -/
theorem C2_amended_witness :
    everyReqRateLimited
      (make_request_with_retry (.str "p") (fun _ => .success ⟨200, none, ""⟩)).1 = true
  ∧ isRateWaitEv Ev.credsLookup = false :=
  ⟨C2_amended.1 (.str "p") (fun _ => .success ⟨200, none, ""⟩),
   C2_amended.2.1 rtRecord rtRunEnv Ev.credsLookup (List.Mem.head _)⟩

/- ------------------------------------------------------------------ -/
/- C8                                                                 -/
/- ------------------------------------------------------------------ -/

/-- Claim C8: for every input record (a dict with all required fields)
whose title is empty (after the strip the code applies), whose content is
empty, or whose tags or categories are not lists, `_run` fails with a
ValidationError and its trace is empty — no credential lookup and no
network request of any kind is made. -/
theorem C8_validation (pd : Json) (renv : RunEnv) (fields : List (String × Json))
    (hobj : pd = Json.obj fields)
    (hreq : required_fields.all (fun k => (pd.getField k).isSome) = true)
    (hbad : pyStrip (pyStr ((pd.getField "title").getD .null)) = ""
      ∨ pyStr ((pd.getField "content").getD .null) = ""
      ∨ ((pd.getField "tags").getD .null).isArr = false
      ∨ ((pd.getField "categories").getD .null).isArr = false) :
    (run pd renv).1 = [] ∧ ∃ m, (run pd renv).2 = .error (.validation m) := by
  subst hobj
  by_cases h1 : pyStrip (pyStr (((Json.obj fields).getField "title").getD .null)) = ""
  · exact ⟨by simp [run, hreq, h1],
      "Title cannot be empty", by simp [run, hreq, h1]⟩
  · by_cases h2 : pyStr (((Json.obj fields).getField "content").getD .null) = ""
    · exact ⟨by simp [run, hreq, h1, h2],
        "Content cannot be empty", by simp [run, hreq, h1, h2]⟩
    · by_cases h3 : (((Json.obj fields).getField "categories").getD .null).isArr = false
      · exact ⟨by simp [run, hreq, h1, h2, h3],
          "Categories must be a list", by simp [run, hreq, h1, h2, h3]⟩
      · by_cases h4 : (((Json.obj fields).getField "tags").getD .null).isArr = false
        · exact ⟨by simp [run, hreq, h1, h2, h3, h4],
            "Tags must be a list", by simp [run, hreq, h1, h2, h3, h4]⟩
        · exact absurd hbad (by simp [h1, h2, h3, h4])

/-- Witness for C8_validation: a record with a non-list tags value is
rejected with an empty trace. -/
theorem C8_validation_witness :
    (run (Json.obj [("title", .str "T"), ("content", .str "C"),
      ("tags", .str "not-a-list"), ("categories", .arr [])]) rtRunEnv).1 = []
  ∧ ∃ m, (run (Json.obj [("title", .str "T"), ("content", .str "C"),
      ("tags", .str "not-a-list"), ("categories", .arr [])]) rtRunEnv).2
      = .error (.validation m) :=
  C8_validation _ rtRunEnv
    [("title", .str "T"), ("content", .str "C"),
     ("tags", .str "not-a-list"), ("categories", .arr [])]
    rfl rfl (Or.inr (Or.inr (Or.inl rfl)))

/- ------------------------------------------------------------------ -/
/- C10                                                                -/
/- ------------------------------------------------------------------ -/

/-- Claim C10: the input validation strips the title but not the content:
a record whose title is whitespace-only is rejected with "Title cannot be
empty", while a record whose content is whitespace-only (but non-empty)
passes validation and proceeds to the publish POST whose body carries
that whitespace content unchanged. -/
theorem C10_trim (s t : String) (renv : RunEnv)
    (hsw : ∀ c ∈ s.toList, isPyWs c = true)
    (ht : t ≠ "") (_htw : ∀ c ∈ t.toList, isPyWs c = true)
    (hu : renv.env.url ≠ "") (hn : renv.env.user ≠ "") (hp : renv.env.password ≠ "") :
    run (Json.obj [("title", .str s), ("content", .str "body"),
        ("tags", .arr []), ("categories", .arr [])]) renv
      = ([], .error (.validation "Title cannot be empty"))
  ∧ (run (Json.obj [("title", .str "T"), ("content", .str t),
        ("tags", .arr []), ("categories", .arr [])]) renv).1
      = [Ev.credsLookup, Ev.postPublish (Json.obj
          [("title", .obj [("raw", .str "T")]),
           ("content", .obj [("raw", .str t)]),
           ("status", .str "draft"),
           ("categories", .arr [])])] := by
  constructor
  · have hget : ((Json.obj [("title", Json.str s), ("content", Json.str "body"),
        ("tags", Json.arr []), ("categories", Json.arr [])]).getField "title").getD
        Json.null = Json.str s := rfl
    have h1 : pyStrip (pyStr (((Json.obj [("title", Json.str s),
        ("content", Json.str "body"), ("tags", Json.arr []),
        ("categories", Json.arr [])]).getField "title").getD Json.null)) = "" := by
      rw [hget]
      show pyStrip s = ""
      exact pyStrip_eq_empty s hsw
    have hreq : required_fields.all (fun k => ((Json.obj [("title", Json.str s),
        ("content", Json.str "body"), ("tags", Json.arr []),
        ("categories", Json.arr [])]).getField k).isSome) = true := rfl
    simp [run, hreq, h1]
  · have hb := run_valid_trace "T" t (.arr []) (.arr []) renv
      (by decide) ht rfl rfl hu hn hp
    rw [show pyStrip "T" = "T" from by decide] at hb
    exact hb

/-- Witness for C10_trim: title "  " is rejected; content " " passes
through to the publish body. -/
theorem C10_trim_witness :
    run (Json.obj [("title", .str "  "), ("content", .str "body"),
        ("tags", .arr []), ("categories", .arr [])]) rtRunEnv
      = ([], .error (.validation "Title cannot be empty"))
  ∧ (run (Json.obj [("title", .str "T"), ("content", .str " "),
        ("tags", .arr []), ("categories", .arr [])]) rtRunEnv).1
      = [Ev.credsLookup, Ev.postPublish (Json.obj
          [("title", .obj [("raw", .str "T")]),
           ("content", .obj [("raw", .str " ")]),
           ("status", .str "draft"),
           ("categories", .arr [])])] :=
  C10_trim "  " " " rtRunEnv (by decide) (by decide) (by decide)
    (by decide) (by decide) (by decide)
